import Mathlib

/-!
Shallow embedding of `tuf/roledb.py` (the role database of a TUF fork).

The module keeps four pieces of global state (roledb.py lines 57-66):
  * `_roledb_dict`                 : rolename -> roleinfo dictionary
  * `_track_changes`               : bool flag
  * `_unwritten_role_changes`      : rolename -> per-role change record
  * `_partially_written_rolenames` : set of rolenames

We model that state as the structure `RoleDBState`.  Python dictionaries are
modelled as association lists with first-occurrence lookup/update/erase
semantics (a dict never holds a duplicate key, and every operation below
touches at most the first occurrence of a key).  Python exceptions are
modelled by the error type `PyErr`; a mutating operation returns the state
it leaves behind together with `Except PyErr _`, because several functions
in the source mutate the database and only afterwards raise.

Several statements in the source are faulty at runtime and we model those
faults faithfully rather than repairing them:
  * line 211 of `add_role` evaluates the undefined names `created`/`touched`
    inside a dict display, so every successful insertion is followed by a
    `NameError`;
  * `_retrieve_list_from_dict` (lines 234-241) evaluates `given_dict in key`
    with a dict on the left of a string membership test, a `TypeError`;
  * `_modify_changes_list` (lines 230-232) evaluates `set(..) + set(..)`,
    a `TypeError` (and in any case rebinds a local, never the caller's list);
  * `clear_unwritten_changes_after_write` (lines 448-449) assigns to a local
    name, leaving the module-level change dict untouched;
  * line 98 of `create_roledb_from_root_metadata` likewise assigns a local
    `_track_changes`, so the module flag is never updated by it;
  * `signature_count_on_write` (lines 371-399) indexes the delegations dict
    of the parent with the child rolename (KeyError for every real rolename)
    and then evaluates the undefined bare name `delegated` (NameError).
-/

/-- Python exception kinds raised by the code under `src/tuf/roledb.py`.
`tufError` stands for the plain `tuf.Error` raised for a missing parent
role (the delegation-integrity failure of the spec). -/
inductive PyErr where
  | formatError : String → PyErr
  | invalidNameError : String → PyErr
  | unknownRoleError : String → PyErr
  | roleAlreadyExistsError : String → PyErr
  | tufError : String → PyErr
  | keyError : String → PyErr
  | nameError : String → PyErr
  | typeError : String → PyErr
  | assertionError : PyErr
deriving DecidableEq, Repr

/-- The value stored under the `paths` key of a roleinfo.  The source stores
either a dict (line 124 initialises `roleinfo['paths'] = ` an empty dict)
or a list of target paths (docstrings, lines 151-162). -/
inductive PathsVal where
  | pdict : List (String × String) → PathsVal
  | plist : List String → PathsVal
deriving DecidableEq, Repr

/-- The `delegations` entry of a roleinfo: a dict with exactly the two keys
`keys` and `roles` (line 125 initialises it to empty keys and roles).  The
payloads are abstracted to the parts the embedded operations observe; no
claim in scope reads inside them. -/
structure Delegations where
  keys : List String := []
  roles : List String := []
deriving DecidableEq, Repr, Inhabited

/-- A role record as stored in `_roledb_dict`.  Field inventory from the
docstrings (lines 27-35, 151-162, 694-699) and the initialisation performed
by `create_roledb_from_root_metadata` (lines 115-125).  `signatures` is the
collected signature list, abstracted to the `keyid` of each signature,
which is the only component the source ever reads (lines 388-389, 427).
Optional dict keys are `Option` fields. -/
structure RoleInfo where
  keyids : List String := []
  threshold : Int := 1
  signatures : List String := []
  signing_keyids : List String := []
  version : Option Int := none
  expires : Option String := none
  compressions : List String := []
  partial_loaded : Bool := false
  paths : Option PathsVal := none
  path_hash_prefixes : Option (List String) := none
  delegations : Option Delegations := none
deriving DecidableEq, Repr, Inhabited

/-- One entry of `_unwritten_role_changes`, exactly the dict built by
`_generate_role_changes_entry` (lines 214-227). -/
structure ChangesEntry where
  created : Bool
  touched : Bool
  targets_added : List String := []
  targets_removed : List String := []
  delegations_made : List String := []
  delegations_removed : List String := []
  delegation_keys_added : List (String × List String) := []
  delegation_keys_revoked : List (String × List String) := []
  delegation_thresholds_modified : List (String × Int) := []
  delegation_paths_added : List (String × List String) := []
  delegation_paths_removed : List (String × List String) := []
  delegation_path_hash_prefixes_added : List (String × List String) := []
  delegation_path_hash_prefixes_removed : List (String × List String) := []
deriving DecidableEq, Repr

/-- The module state of `tuf.roledb` (lines 57-66). -/
structure RoleDBState where
  roledb : List (String × RoleInfo)
  track_changes : Bool
  unwritten : List (String × ChangesEntry)
  partially_written : List String
deriving DecidableEq, Repr

/-- Dictionary lookup: value at the first occurrence of a key. -/
def alookup {α : Type} : List (String × α) → String → Option α
  | [], _ => none
  | (k, v) :: rest, key => if k = key then some v else alookup rest key

/-- Dictionary assignment to an existing key: replace the value at the
first occurrence, leave the list unchanged if the key is absent. -/
def aset {α : Type} : List (String × α) → String → α → List (String × α)
  | [], _, _ => []
  | (k, v) :: rest, key, val =>
    if k = key then (k, val) :: rest else (k, v) :: aset rest key val

/-- In-place modification of the value at the first occurrence of a key. -/
def amodify {α : Type} : List (String × α) → String → (α → α) → List (String × α)
  | [], _, _ => []
  | (k, v) :: rest, key, f =>
    if k = key then (k, f v) :: rest else (k, v) :: amodify rest key f

/-- Dictionary deletion (`del d[k]`): drop the first occurrence of a key. -/
def aerase {α : Type} : List (String × α) → String → List (String × α)
  | [], _ => []
  | (k, v) :: rest, key => if k = key then rest else (k, v) :: aerase rest key

/-- `list(d.keys())`. -/
def akeys {α : Type} (l : List (String × α)) : List String := l.map Prod.fst

/-- Python `str.strip()` whitespace predicate. -/
def is_py_space (c : Char) : Bool :=
  c = ' ' || c = '\t' || c = '\n' || c = '\r' || c = '\x0b' || c = '\x0c'

/-- Python `str.strip()`: drop leading and trailing whitespace. -/
def py_strip (s : String) : String :=
  String.mk (((s.data.dropWhile is_py_space).reverse.dropWhile is_py_space).reverse)

/-- Python `pre in s` for a one-character test, specialised to the
separator test `'/' in rolename` of line 202. -/
def slash_in (s : String) : Bool := s.data.contains '/'

/-- Python `s.startswith(pre)`. -/
def py_startswith (s pre : String) : Bool := pre.data.isPrefixOf s.data

/-- Python `s.endswith(suf)`. -/
def py_endswith (s suf : String) : Bool := suf.data.isSuffixOf s.data

/-- Helper for Python `s.split('/')`: accumulate the current segment while
scanning the character list. -/
def split_slash_aux : List Char → List Char → List String
  | [], acc => [String.mk acc.reverse]
  | c :: rest, acc =>
    if c = '/' then String.mk acc.reverse :: split_slash_aux rest []
    else split_slash_aux rest (c :: acc)

/-- Python `s.split('/')`: the empty string yields one empty segment, as in
Python. -/
def split_slash (s : String) : List String := split_slash_aux s.data []

/-- Python `'/'.join(parts)`. -/
def join_slash : List String → String
  | [] => ""
  | [s] => s
  | s :: rest => s ++ "/" ++ join_slash rest

/-- `'/'.join(rolename.split('/')[:-1])`, the parent-name computation used
at line 204 of `add_role` and lines 485-486 of `get_parent_rolename`. -/
def parent_of (rolename : String) : String :=
  join_slash ((split_slash rolename).dropLast)

/-- The descendant test of `remove_delegated_roles` (lines 656-658) and
`get_delegated_rolenames` (lines 888-890): `name.startswith(rolename + '/')`,
written on the underlying character lists. -/
def is_delegated_name (rolename name : String) : Bool :=
  (rolename.data ++ ['/']).isPrefixOf name.data

/-- `_validate_rolename` (lines 946-962). -/
def _validate_rolename (rolename : String) : Except PyErr Unit :=
  if rolename = "" then
    .error (.invalidNameError "Rolename must not be an empty string")
  else if rolename ≠ py_strip rolename then
    .error (.invalidNameError
      ("Invalid rolename. Cannot start or end with whitespace: " ++ rolename))
  else if py_startswith rolename "/" || py_endswith rolename "/" then
    .error (.invalidNameError
      ("Invalid rolename. Cannot start or end with the separator: " ++ rolename))
  else
    .ok ()

/-- `_check_rolename` (lines 923-940).  `ROLENAME_SCHEMA.check_match` (line
934) accepts every string and is omitted. -/
def _check_rolename (st : RoleDBState) (rolename : String) : Except PyErr Unit :=
  match _validate_rolename rolename with
  | .error e => .error e
  | .ok _ =>
    if (alookup st.roledb rolename).isNone then
      .error (.unknownRoleError ("Role name does not exist: " ++ rolename))
    else
      .ok ()

/-- The fresh per-role change record of `_generate_role_changes_entry`
(lines 214-227): all lists and dicts empty. -/
def _generate_role_changes_entry (created : Bool) : ChangesEntry :=
  { created := created, touched := false }

/-- Line 231 evaluates `set(changes_list) + set(list_to_add)`: Python sets
do not support the `+` operator, so the expression raises `TypeError`. -/
def py_set_plus (_a _b : List String) : Except PyErr (List String) :=
  .error (.typeError "unsupported operand types for +: set and set")

/-- `_modify_changes_list` body (line 231): the set union via `+` raises;
had it succeeded, the subtraction of line 232 would follow, and the result
would in any case only rebind the local name. -/
def _modify_changes_list (changes_list list_to_add list_to_remove :
    List String) : Except PyErr (List String) :=
  match py_set_plus changes_list list_to_add with
  | .error e => .error e
  | .ok u => .ok (u.filter (fun x => ¬ list_to_remove.contains x))

/-- `_retrieve_list_from_dict` (lines 234-241).  Line 235 evaluates
`given_dict in key`, a membership test on the string `key` with a dict as
left operand: `TypeError` on every call, before anything else happens. -/
def _retrieve_list_from_dict (_given_dict : RoleInfo) (_key : String) :
    Except PyErr (List String) :=
  .error (.typeError "in requires string as left operand, not dict")

/-- `_update_unwritten_role_changes` (lines 244-309).  The first statement
after the bindings is the `_retrieve_list_from_dict` call of line 255, which
always raises `TypeError`; every later line (the merge of targets,
delegations, keys, paths, prefixes and thresholds, lines 256-309) is dead
code and is represented by the final summarising expression below, which the
raised error short-circuits past. -/
def _update_unwritten_role_changes (st : RoleDBState) (rolename : String)
    (_new_roleinfo : RoleInfo) : Except PyErr (List (String × ChangesEntry)) :=
  let changes :=
    match alookup st.unwritten rolename with
    | some c => c
    | none => _generate_role_changes_entry false
  match alookup st.roledb rolename with
  | none => .error (.keyError rolename)
  | some previous_roleinfo =>
    match _retrieve_list_from_dict previous_roleinfo "paths" with
    | .error e => .error e
    | .ok _previous_paths =>
      -- lines 256-303 are unreachable: the call above already raised.
      -- lines 305-309: store or drop the merged entry.
      if changes = _generate_role_changes_entry false then
        .ok (aerase st.unwritten rolename)
      else
        .ok (aset st.unwritten rolename changes)

/-- `add_role` (lines 138-211).  The schema checks of lines 186-192 accept
every well-typed argument.  After the record is stored (line 209), line 211
evaluates the dict display with the undefined variable names `created` and
`touched` as keys, so the call always ends in `NameError` — but the store
mutation of line 209 has already happened. -/
def add_role (st : RoleDBState) (rolename : String) (roleinfo : RoleInfo)
    (require_parent : Bool) : RoleDBState × Except PyErr Unit :=
  match _validate_rolename rolename with
  | .error e => (st, .error e)
  | .ok _ =>
    if (alookup st.roledb rolename).isSome then
      (st, .error (.roleAlreadyExistsError ("Role already exists: " ++ rolename)))
    else if require_parent && slash_in rolename
        && (alookup st.roledb (parent_of rolename)).isNone then
      (st, .error (.tufError ("Parent role does not exist: " ++ parent_of rolename)))
    else
      ({ st with roledb := st.roledb ++ [(rolename, roleinfo)] },
       .error (.nameError "name created is not defined"))

/-- `update_roleinfo` (lines 312-368).  With tracking enabled, line 366
calls `_update_unwritten_role_changes`, which raises `TypeError` before the
store assignment of line 368, so a tracked update leaves the state
untouched and propagates the error. -/
def update_roleinfo (st : RoleDBState) (rolename : String) (roleinfo : RoleInfo) :
    RoleDBState × Except PyErr Unit :=
  match _validate_rolename rolename with
  | .error e => (st, .error e)
  | .ok _ =>
    if (alookup st.roledb rolename).isNone then
      (st, .error (.unknownRoleError ("Role does not exist: " ++ rolename)))
    else if st.track_changes then
      match _update_unwritten_role_changes st rolename roleinfo with
      | .error e => (st, .error e)
      | .ok unw =>
        ({ st with unwritten := unw,
                   roledb := aset st.roledb rolename roleinfo }, .ok ())
    else
      ({ st with roledb := aset st.roledb rolename roleinfo }, .ok ())

/-- Indexing the two-key delegations dict (`{'keys': .., 'roles': ..}`) with
an arbitrary string, as line 376 does with the child rolename. -/
def delegations_getitem (_d : Delegations) (key : String) : Except PyErr Unit :=
  if key = "keys" || key = "roles" then .ok ()
  else .error (.keyError key)

/-- `signature_count_on_write` (lines 371-399).  Line 376 reads
`_roledb_dict[get_parent_rolename(rolename)]['delegations'][rolename]`:
a `KeyError` when the parent name is not stored, when the parent record has
no delegations key, or (since the delegations dict only carries the keys
`keys` and `roles`) when the child rolename is used as its index.  If every
lookup succeeded, line 377 is the bare statement `delegated`, an undefined
name, so the function raises `NameError` before reaching the branches of
lines 380-399 (which are themselves dead code containing a missing colon,
the undefined name `threshold` and a set-plus-set `TypeError`). -/
def signature_count_on_write (st : RoleDBState) (rolename : String) :
    Except PyErr Nat :=
  match _check_rolename st rolename with
  | .error e => .error e
  | .ok _ =>
    match alookup st.roledb rolename with
    | none => .error (.keyError rolename)
    | some _roleinfo =>
      match alookup st.roledb (parent_of rolename) with
      | none => .error (.keyError (parent_of rolename))
      | some parent_info =>
        match parent_info.delegations with
        | none => .error (.keyError "delegations")
        | some d =>
          match delegations_getitem d rolename with
          | .error e => .error e
          | .ok _ => .error (.nameError "name delegated is not defined")

/-- `list_changed_rolenames` (lines 403-404). -/
def list_changed_rolenames (st : RoleDBState) : List String :=
  akeys st.unwritten

/-- `touch_role` (lines 436-445).  The `assert _track_changes` of line 437
raises `AssertionError` when tracking is off.  When the role has no entry
and the value is falsy the function returns without effect (lines 440-441);
otherwise a fresh entry is created if needed (line 443) and its `touched`
flag is assigned (line 445).  Note that line 445 only assigns the flag: it
never deletes the entry, even for `value = false`. -/
def touch_role (st : RoleDBState) (rolename : String) (value : Bool) :
    RoleDBState × Except PyErr Unit :=
  if st.track_changes = false then
    (st, .error .assertionError)
  else if (alookup st.unwritten rolename).isNone then
    if value = false then
      (st, .ok ())
    else
      let unw0 := st.unwritten ++ [(rolename, _generate_role_changes_entry false)]
      let unw1 := amodify unw0 rolename (fun c => { c with touched := value })
      ({ st with unwritten := unw1 }, .ok ())
  else
    let unw1 := amodify st.unwritten rolename (fun c => { c with touched := value })
    ({ st with unwritten := unw1 }, .ok ())

/-- `clear_unwritten_changes_after_write` (lines 448-449).  The body assigns
an empty dict to the LOCAL name `_unwritten_role_changes` (no `global`
declaration), so the module-level change dict is left untouched: the
function has no effect on the state. -/
def clear_unwritten_changes_after_write (st : RoleDBState) : RoleDBState :=
  st

/-- `set_partially_written_rolenames` (lines 452-453).  The body is the bare
expression `_partially_written_rolenames`: no assignment happens. -/
def set_partially_written_rolenames (st : RoleDBState)
    (_rolename_set : List String) : RoleDBState :=
  st

/-- `get_parent_rolename` (lines 456-488). -/
def get_parent_rolename (st : RoleDBState) (rolename : String) :
    Except PyErr String :=
  match _check_rolename st rolename with
  | .error e => .error e
  | .ok _ => .ok (parent_of rolename)

/-- `remove_delegated_roles` (lines 624-659): delete every stored name that
begins with `rolename + '/'`. -/
def remove_delegated_roles (st : RoleDBState) (rolename : String) :
    RoleDBState × Except PyErr Unit :=
  match _check_rolename st rolename with
  | .error e => (st, .error e)
  | .ok _ =>
    ({ st with roledb :=
        st.roledb.filter (fun p => ¬ is_delegated_name rolename p.1) }, .ok ())

/-- `remove_role` (lines 586-618): cascade over the delegated names, then
delete the role itself. -/
def remove_role (st : RoleDBState) (rolename : String) :
    RoleDBState × Except PyErr Unit :=
  match _check_rolename st rolename with
  | .error e => (st, .error e)
  | .ok _ =>
    match remove_delegated_roles st rolename with
    | (st1, .error e) => (st1, .error e)
    | (st1, .ok _) =>
      ({ st1 with roledb := aerase st1.roledb rolename }, .ok ())

/-- `get_rolenames` (lines 665-683). -/
def get_rolenames (st : RoleDBState) : List String :=
  akeys st.roledb

/-- `get_roleinfo` (lines 689-724): validity and membership checks, then a
deep copy of the stored record (value-level: the record itself; see the
reference model below for the copy freshness). -/
def get_roleinfo (st : RoleDBState) (rolename : String) :
    Except PyErr RoleInfo :=
  match _check_rolename st rolename with
  | .error e => .error e
  | .ok _ =>
    match alookup st.roledb rolename with
    | none => .error (.keyError rolename)
    | some roleinfo => .ok roleinfo

/-- `get_role_changes` (lines 842-850). -/
def get_role_changes (st : RoleDBState) (rolename : String) :
    Except PyErr ChangesEntry :=
  match _check_rolename st rolename with
  | .error e => .error e
  | .ok _ =>
    match alookup st.unwritten rolename with
    | some c => .ok c
    | none => .ok (_generate_role_changes_entry false)

/-- `clear_roledb` (lines 899-917): `_roledb_dict.clear()` and nothing
else — neither `_unwritten_role_changes` nor `_partially_written_rolenames`
is touched. -/
def clear_roledb (st : RoleDBState) : RoleDBState :=
  { st with roledb := [] }

/-- One entry of the `roles` map of a root-metadata object: per
`tuf.formats.ROOT_SCHEMA` (line 83 of the spec section 6 and the docstring
of lines 76-78), a role carries its authorized keyids and its threshold. -/
structure RoleStub where
  keyids : List String
  threshold : Int
deriving DecidableEq, Repr

/-- A validated root-metadata object: a role map plus the version integer
and expiration timestamp of the envelope (docstring lines 76-78, spec
section 6). -/
structure RootMetadata where
  version : Int
  expires : String
  roles : List (String × RoleStub)
deriving DecidableEq, Repr

/-- The roleinfo that the loop body of `create_roledb_from_root_metadata`
builds for one role (lines 114-125): envelope version/expires for `root`,
fresh bookkeeping fields for everyone, empty paths and delegations for
`targets`-prefixed names. -/
def roleinfo_of_stub (meta : RootMetadata) (rolename : String)
    (stub : RoleStub) : RoleInfo :=
  let base : RoleInfo := { keyids := stub.keyids, threshold := stub.threshold }
  let base :=
    if rolename = "root" then
      { base with version := some meta.version, expires := some meta.expires }
    else base
  let base := { base with signatures := [], signing_keyids := [],
                          compressions := [""], partial_loaded := false }
  if py_startswith rolename "targets" then
    { base with paths := some (.pdict []), delegations := some {} }
  else base

/-- The role loop of `create_roledb_from_root_metadata` (lines 114-132):
each role is built and handed to `add_role`; any exception aborts the loop
(the `except` clause of lines 130-132 re-raises `tuf.Error`, and every
other exception propagates uncaught). -/
def create_add_roles (meta : RootMetadata) :
    RoleDBState → List (String × RoleStub) → RoleDBState × Except PyErr Unit
  | st, [] => (st, .ok ())
  | st, (rolename, stub) :: rest =>
    let roleinfo := roleinfo_of_stub meta rolename stub
    match add_role st rolename roleinfo true with
    | (st1, .error e) => (st1, .error e)
    | (st1, .ok _) => create_add_roles meta st1 rest

/-- `create_roledb_from_root_metadata` (lines 69-132).  Line 98 assigns the
LOCAL name `_track_changes` (no `global` declaration), so the module flag —
`st.track_changes` here — is not updated.  Line 107 clears the role
database BEFORE any role of the incoming metadata is examined; the roles
are then added one by one, so a failure mid-loop leaves the cleared store
holding only the prefix of roles added so far. -/
def create_roledb_from_root_metadata (st : RoleDBState)
    (root_metadata : RootMetadata) (_track_changes_arg : Bool) :
    RoleDBState × Except PyErr Unit :=
  let st1 := { st with roledb := [] }
  create_add_roles root_metadata st1 root_metadata.roles

/-!
Reference-aliasing model.

The value-level model above cannot express the difference between storing a
reference and storing a `copy.deepcopy`, which claims C8 and C10 are about.
The model below makes object identity explicit: every role record lives in
a heap cell addressed by a `Nat`, the database maps rolenames to addresses,
and `copy.deepcopy` allocates a fresh cell (`RefState.alloc`).  Mutating a
Python object in place is `heapWrite` at its address.  A record is a flat
heap value: `deepcopy` copies the whole object tree, so one fresh cell per
copied record is a faithful rendering of the aliasing behaviour.  The
checks of each operation mirror the value-level definitions above.
-/

/-- Heap update at one address. -/
def heapWrite (h : Nat → RoleInfo) (a : Nat) (v : RoleInfo) : Nat → RoleInfo :=
  fun b => if b = a then v else h b

/-- The module state with object identity: a heap of role records, the
next fresh address, the name-to-address database and the tracking flag. -/
structure RefState where
  heap : Nat → RoleInfo
  next : Nat
  db : List (String × Nat)
  track_changes : Bool

/-- `copy.deepcopy`: allocate the copied value in a fresh cell. -/
def RefState.alloc (s : RefState) (v : RoleInfo) : RefState × Nat :=
  ({ s with heap := heapWrite s.heap s.next v, next := s.next + 1 }, s.next)

/-- All database addresses are allocated (below `next`): the invariant every
reachable `RefState` satisfies. -/
def RefWF (s : RefState) : Prop :=
  ∀ kv ∈ s.db, kv.2 < s.next

instance (s : RefState) : Decidable (RefWF s) := by
  unfold RefWF; infer_instance

/-- `get_roleinfo` (lines 689-724) in the reference model: after the
checks, line 724 returns `copy.deepcopy(_roledb_dict[rolename])` — a fresh
cell holding a copy of the stored record. -/
def get_roleinfo_ref (s : RefState) (rolename : String) :
    RefState × Except PyErr Nat :=
  match _validate_rolename rolename with
  | .error e => (s, .error e)
  | .ok _ =>
    match alookup s.db rolename with
    | none => (s, .error (.unknownRoleError ("Role name does not exist: " ++ rolename)))
    | some p =>
      let (s1, a) := s.alloc (s.heap p)
      (s1, .ok a)

/-- The record value a `get_roleinfo` call hands back (the content of the
returned copy), or the error it raises. -/
def get_value_ref (s : RefState) (rolename : String) : Except PyErr RoleInfo :=
  match get_roleinfo_ref s rolename with
  | (s1, .ok a) => .ok (s1.heap a)
  | (_, .error e) => .error e

/-- `add_role` (lines 138-211) in the reference model: the argument is the
address of the caller's record; line 209 stores `copy.deepcopy(roleinfo)`,
a fresh cell; line 211 then raises `NameError` as in the value model. -/
def add_role_ref (s : RefState) (rolename : String) (arg : Nat)
    (require_parent : Bool) : RefState × Except PyErr Unit :=
  match _validate_rolename rolename with
  | .error e => (s, .error e)
  | .ok _ =>
    if (alookup s.db rolename).isSome then
      (s, .error (.roleAlreadyExistsError ("Role already exists: " ++ rolename)))
    else if require_parent && slash_in rolename
        && (alookup s.db (parent_of rolename)).isNone then
      (s, .error (.tufError ("Parent role does not exist: " ++ parent_of rolename)))
    else
      let (s1, a) := s.alloc (s.heap arg)
      ({ s1 with db := s1.db ++ [(rolename, a)] },
       .error (.nameError "name created is not defined"))

/-- `update_roleinfo` (lines 312-368) in the reference model: with tracking
off, line 368 stores `copy.deepcopy(roleinfo)` into a fresh cell; with
tracking on the call raises before storing, as in the value model. -/
def update_roleinfo_ref (s : RefState) (rolename : String) (arg : Nat) :
    RefState × Except PyErr Unit :=
  match _validate_rolename rolename with
  | .error e => (s, .error e)
  | .ok _ =>
    if (alookup s.db rolename).isNone then
      (s, .error (.unknownRoleError ("Role does not exist: " ++ rolename)))
    else if s.track_changes then
      (s, .error (.typeError "in requires string as left operand, not dict"))
    else
      let (s1, a) := s.alloc (s.heap arg)
      ({ s1 with db := aset s1.db rolename a }, .ok ())

/-- Root metadata in the reference model: the role map holds the addresses
of the caller-owned role dicts. -/
structure RootMetaRef where
  version : Int
  expires : String
  roles : List (String × Nat)

/-- The per-role work of `create_roledb_from_root_metadata` on the deep
copy of the metadata (lines 110-125): the copied role dict receives the
envelope fields and the bookkeeping defaults, and is allocated fresh — the
caller's cell at `src` is only read. -/
def copy_and_init_ref (s : RefState) (meta : RootMetaRef) (rolename : String)
    (src : Nat) : RefState × Nat :=
  let v := s.heap src
  let v :=
    if rolename = "root" then
      { v with version := some meta.version, expires := some meta.expires }
    else v
  let v := { v with signatures := [], signing_keyids := [],
                    compressions := [""], partial_loaded := false }
  let v :=
    if py_startswith rolename "targets" then
      { v with paths := some (.pdict []), delegations := some {} }
    else v
  s.alloc v

/-- The role loop of `create_roledb_from_root_metadata` in the reference
model (lines 114-132). -/
def create_add_roles_ref (meta : RootMetaRef) :
    RefState → List (String × Nat) → RefState × Except PyErr Unit
  | s, [] => (s, .ok ())
  | s, (rolename, src) :: rest =>
    let sca := copy_and_init_ref s meta rolename src
    match add_role_ref sca.1 rolename sca.2 true with
    | (s2, .error e) => (s2, .error e)
    | (s2, .ok _) => create_add_roles_ref meta s2 rest

/-- `create_roledb_from_root_metadata` (lines 69-132) in the reference
model: clear the database (line 107), deep-copy the metadata and add each
role (lines 110-132). -/
def create_roledb_ref (s : RefState) (meta : RootMetaRef)
    (_track_changes_arg : Bool) : RefState × Except PyErr Unit :=
  create_add_roles_ref meta { s with db := [] } meta.roles

/-- Boolean observer: does an `Except` carry an `UnknownRoleError`? -/
def is_unknown_role_error : Except PyErr RoleInfo → Bool
  | .error (.unknownRoleError _) => true
  | _ => false

/-- Boolean observer: is an `Except PyErr Nat` a successful return? -/
def nat_result_ok : Except PyErr Nat → Bool
  | .ok _ => true
  | .error _ => false

/-- Concrete fixtures used by the claim theorems below. -/
def rdefault : RoleInfo := {}

/-- A record whose delegations dict is present (and empty). -/
def withDeleg : RoleInfo := { delegations := some {} }

/-- Store holding only `root`, tracking off: the before-state of C1. -/
def c1pre : RoleDBState :=
  { roledb := [("root", rdefault)], track_changes := false,
    unwritten := [], partially_written := [] }

/-- Root metadata whose role-name set fails the parent closure: the single
role `a/b` has no parent `a`. -/
def c1meta_bad : RootMetadata :=
  { version := 1, expires := "2030-01-01T00:00:00Z",
    roles := [("a/b", { keyids := ["k1"], threshold := 1 })] }

/-- Root metadata whose role-name set passes the parent closure: the single
top-level role `root`. -/
def c1meta_good : RootMetadata :=
  { version := 1, expires := "2030-01-01T00:00:00Z",
    roles := [("root", { keyids := ["k1"], threshold := 1 })] }

/-- Store holding `a` (with a delegations dict) and its delegate `a/b`. -/
def c2st : RoleDBState :=
  { roledb := [("a", withDeleg), ("a/b", rdefault)], track_changes := false,
    unwritten := [], partially_written := [] }

/-- Store holding `root`, with change tracking enabled and no pending
changes. -/
def c3st : RoleDBState :=
  { roledb := [("root", rdefault)], track_changes := true,
    unwritten := [], partially_written := [] }

/-- An updated record for C3. -/
def c3new : RoleInfo := { keyids := ["knew"] }

/-- C3 state after `touch_role('root', True)`. -/
def c3touched : RoleDBState := (touch_role c3st "root" true).1

/-- Empty store with change tracking enabled. -/
def c4st : RoleDBState :=
  { roledb := [], track_changes := true, unwritten := [], partially_written := [] }

/-- C4 state after `touch_role('a', True)` from the empty tracker: the only
diff of `a` is the touch. -/
def c4st1 : RoleDBState := (touch_role c4st "a" true).1

/-- C4 state after the subsequent `touch_role('a', False)`. -/
def c4st2 : RoleDBState := (touch_role c4st1 "a" false).1

/-- A state with one stored role, one pending diff and one partially
written role: the C6 before-state. -/
def c6st : RoleDBState :=
  { roledb := [("a", rdefault)], track_changes := true,
    unwritten := [("a", { created := false, touched := true })],
    partially_written := ["a"] }

/-- The empty store, tracking off. -/
def c7e : RoleDBState :=
  { roledb := [], track_changes := false, unwritten := [], partially_written := [] }

/-- Records used by the C7 and C8 scenarios. -/
def rx : RoleInfo := { keyids := ["kx"], threshold := 1 }

def ry : RoleInfo := { keyids := ["ky"], threshold := 1 }

def rx2 : RoleInfo := { keyids := ["kz"], threshold := 2 }

/-- C7 state after `add_role('x', rx)` (the record is stored even though
the call raised `NameError`). -/
def c7st1 : RoleDBState := (add_role c7e "x" rx true).1

/-- The five-role store of the C9 scenario. -/
def c9st : RoleDBState :=
  { roledb := [("a", rdefault), ("a/b", rdefault), ("a/c", rdefault),
               ("a/b/c", rdefault), ("a/b/c/d", rdefault)],
    track_changes := false, unwritten := [], partially_written := [] }

/-- Reference-model fixture: one stored record at address 0, next fresh
address 1. -/
def s8 : RefState :=
  { heap := fun _ => rdefault, next := 1, db := [("x", 0)], track_changes := false }

/-- The state `get_roleinfo('x')` leaves behind on `s8`. -/
def s8got : RefState := (get_roleinfo_ref s8 "x").1

/-- A mutation value for the aliasing scenarios. -/
def mutrec : RoleInfo := { keyids := ["evil"] }

/-- Reference-model fixture for C10: records at addresses 0 and 1, role
`x` stored at address 0, next fresh address 2. -/
def s10 : RefState :=
  { heap := fun _ => rdefault, next := 2, db := [("x", 0)], track_changes := false }

/-- Reference-model root metadata whose role dict for `root` lives in the
caller-owned cell 1. -/
def meta10 : RootMetaRef :=
  { version := 1, expires := "2030-01-01T00:00:00Z", roles := [("root", 1)] }

/-- The flag update of line 445: set the `touched` flag of the entry of
`n` in place. -/
def set_touched (st : RoleDBState) (n : String) (v : Bool) : RoleDBState :=
  { st with unwritten := amodify st.unwritten n (fun c => { c with touched := v }) }

/-- The entry creation of line 443: append a fresh changes entry for `n`. -/
def append_fresh_entry (st : RoleDBState) (n : String) : RoleDBState :=
  { st with unwritten := st.unwritten ++ [(n, _generate_role_changes_entry false)] }

/-- A fresh changes entry whose only diff is the touch flag. -/
def touched_entry : ChangesEntry :=
  { _generate_role_changes_entry false with touched := true }

/-- Call `get`, then mutate the returned copy in place: the scenario of
the copy-independence claim. -/
def get_then_mutate (s : RefState) (n : String) (v : RoleInfo) : RefState :=
  match get_roleinfo_ref s n with
  | (s1, .ok a) => { s1 with heap := heapWrite s1.heap a v }
  | (s1, .error _) => s1

/-- The state `add_role` leaves behind when all checks pass: the deep copy
of the argument cell `p` is stored at the fresh address (line 209). -/
def add_stored_state (s : RefState) (n : String) (p : Nat) : RefState :=
  { s with
      heap := heapWrite s.heap s.next (s.heap p),
      next := s.next + 1,
      db := s.db ++ [(n, s.next)] }

/-- The state `update_roleinfo` leaves behind when all checks pass and
tracking is off: the deep copy of the argument cell `p` is stored at the
fresh address (line 368). -/
def update_stored_state (s : RefState) (n : String) (p : Nat) : RefState :=
  { s with
      heap := heapWrite s.heap s.next (s.heap p),
      next := s.next + 1,
      db := aset s.db n s.next }

/-!
Shared lemmas about the dictionary model and name predicates.
-/

theorem alookup_append_of_none {α : Type} (l1 l2 : List (String × α))
    (k : String) (h : alookup l1 k = none) :
    alookup (l1 ++ l2) k = alookup l2 k := by
  induction l1 with
  | nil => simp
  | cons kv rest ih =>
    obtain ⟨k0, v0⟩ := kv
    by_cases hk : k0 = k
    · simp [alookup, hk] at h
    · simp only [alookup, hk, if_false, List.cons_append] at h ⊢
      exact ih h

theorem alookup_append_unit {α : Type} (l : List (String × α)) (k : String)
    (v : α) (h : alookup l k = none) :
    alookup (l ++ [(k, v)]) k = some v := by
  rw [alookup_append_of_none l [(k, v)] k h]
  simp [alookup]

theorem alookup_amodify_self {α : Type} (l : List (String × α)) (k : String)
    (f : α → α) : alookup (amodify l k f) k = (alookup l k).map f := by
  induction l with
  | nil => simp [alookup, amodify]
  | cons kv rest ih =>
    obtain ⟨k0, v0⟩ := kv
    by_cases hk : k0 = k
    · simp [alookup, amodify, hk]
    · simp [alookup, amodify, hk, ih]

theorem amodify_amodify_self {α : Type} (l : List (String × α)) (k : String)
    (f : α → α) (hf : ∀ c, f (f c) = f c) :
    amodify (amodify l k f) k f = amodify l k f := by
  induction l with
  | nil => simp [amodify]
  | cons kv rest ih =>
    obtain ⟨k0, v0⟩ := kv
    by_cases hk : k0 = k
    · simp [amodify, hk, hf]
    · simp [amodify, hk, ih]

theorem akeys_amodify {α : Type} (l : List (String × α)) (k : String)
    (f : α → α) : akeys (amodify l k f) = akeys l := by
  induction l with
  | nil => simp [amodify]
  | cons kv rest ih =>
    obtain ⟨k0, v0⟩ := kv
    by_cases hk : k0 = k
    · simp [amodify, akeys, hk]
    · simp [amodify, akeys, hk]
      simpa [akeys] using ih

theorem mem_akeys_of_isSome {α : Type} (l : List (String × α)) (k : String)
    (h : (alookup l k).isSome) : k ∈ akeys l := by
  induction l with
  | nil => simp [alookup] at h
  | cons kv rest ih =>
    obtain ⟨k0, v0⟩ := kv
    by_cases hk : k0 = k
    · simp [akeys, hk]
    · simp only [alookup, hk, if_false] at h
      simp only [akeys, List.map_cons, List.mem_cons]
      exact Or.inr (by simpa [akeys] using ih h)

theorem alookup_mem {α : Type} (l : List (String × α)) (k : String) (v : α)
    (h : alookup l k = some v) : (k, v) ∈ l := by
  induction l with
  | nil => simp [alookup] at h
  | cons kv rest ih =>
    obtain ⟨k0, v0⟩ := kv
    by_cases hk : k0 = k
    · simp only [alookup, hk, if_true] at h
      subst hk
      cases h
      exact List.mem_cons_self _ _
    · simp only [alookup, hk, if_false] at h
      exact List.mem_cons_of_mem _ (ih h)

theorem alookup_aset_self {α : Type} (l : List (String × α)) (k : String)
    (v : α) (h : (alookup l k).isSome) : alookup (aset l k v) k = some v := by
  induction l with
  | nil => simp [alookup] at h
  | cons kv rest ih =>
    obtain ⟨k0, v0⟩ := kv
    by_cases hk : k0 = k
    · simp [aset, alookup, hk]
    · simp only [alookup, hk, if_false] at h
      simp only [aset, hk, if_false, alookup]
      exact ih h

theorem is_delegated_name_self (n : String) : is_delegated_name n n = false := by
  unfold is_delegated_name
  by_contra h
  rw [Bool.not_eq_false] at h
  have hp : (n.data ++ ['/']) <+: n.data := List.isPrefixOf_iff_prefix.mp h
  have hlen := hp.length_le
  simp at hlen

/-- `touch_role` on a role that already has a changes entry reduces to an
in-place update of the `touched` flag (line 445). -/
theorem touch_role_state_of_some (st : RoleDBState) (n : String) (v : Bool)
    (htc : st.track_changes = true)
    (h : (alookup st.unwritten n).isSome = true) :
    (touch_role st n v).1 = set_touched st n v := by
  unfold set_touched
  unfold touch_role
  rw [htc]
  have h2 : (alookup st.unwritten n).isNone = false := by
    cases hx : alookup st.unwritten n
    · rw [hx] at h; simp at h
    · simp
  simp [h2]

/-- C4 counterexample: from an empty tracker (tracking on), `touch('a',
True)` followed by `touch('a', False)` — a role whose only diff is a
touch — leaves `a` in `changedRoleNames`, refuting the removal half of the
claim: line 445 only resets the flag, it never deletes the entry. -/
theorem C4_touch_false_does_not_remove :
    alookup c4st1.unwritten "a" = some touched_entry
    ∧ list_changed_rolenames c4st2 = ["a"]
    ∧ "a" ∈ list_changed_rolenames c4st2 := by
  refine ⟨rfl, rfl, ?_⟩
  rw [show list_changed_rolenames c4st2 = ["a"] from rfl]
  exact List.mem_singleton_self "a"

/-- C4 (amended): `touch(n, true)` applied twice yields the same tracker
state as applying it once (for every state and name); and `touch(n, false)`
applied when the only diff of `n` is a touch resets the entry to the fresh
(no-diff) entry but leaves `n` in the result of `changedRoleNames` — the
entry is not removed. -/
theorem C4_touch_idempotent_and_flag_reset :
    (∀ (st : RoleDBState) (n : String),
        (touch_role (touch_role st n true).1 n true).1 = (touch_role st n true).1)
    ∧ (∀ (st : RoleDBState) (n : String),
        st.track_changes = true →
        alookup st.unwritten n = some touched_entry →
        alookup ((touch_role st n false).1).unwritten n
            = some (_generate_role_changes_entry false)
        ∧ n ∈ list_changed_rolenames (touch_role st n false).1) := by
  constructor
  · intro st n
    cases htc : st.track_changes with
    | false =>
      have h1 : touch_role st n true = (st, .error .assertionError) := by
        unfold touch_role; rw [htc]; simp
      rw [h1]
      show (touch_role st n true).1 = st
      rw [h1]
    | true =>
      cases hlk : alookup st.unwritten n with
      | none =>
        have h1 : (touch_role st n true).1
            = set_touched (append_fresh_entry st n) n true := by
          unfold touch_role set_touched append_fresh_entry
          rw [htc]
          have hn : (alookup st.unwritten n).isNone = true := by rw [hlk]; rfl
          simp [hn]
        have h2 : (alookup ((touch_role st n true).1).unwritten n).isSome = true := by
          rw [h1]
          show (alookup (amodify (st.unwritten ++ [(n, _generate_role_changes_entry false)])
                  n (fun c => { c with touched := true })) n).isSome = true
          rw [alookup_amodify_self, alookup_append_unit _ _ _ hlk]
          rfl
        have htc2 : ((touch_role st n true).1).track_changes = true := by
          rw [h1]; exact htc
        rw [touch_role_state_of_some _ _ _ htc2 h2, h1]
        unfold set_touched append_fresh_entry
        have hidem := amodify_amodify_self
          (st.unwritten ++ [(n, _generate_role_changes_entry false)]) n
          (fun c => { c with touched := true }) (fun c => rfl)
        simp only [hidem]
      | some e =>
        have hs : (alookup st.unwritten n).isSome = true := by rw [hlk]; rfl
        rw [touch_role_state_of_some st n true htc hs]
        have hs2 : (alookup (set_touched st n true).unwritten n).isSome = true := by
          show (alookup (amodify st.unwritten n
                  (fun c => { c with touched := true })) n).isSome = true
          rw [alookup_amodify_self, hlk]
          rfl
        have htc3 : (set_touched st n true).track_changes = true := htc
        rw [touch_role_state_of_some _ _ _ htc3 hs2]
        unfold set_touched
        have hidem := amodify_amodify_self st.unwritten n
          (fun c => { c with touched := true }) (fun c => rfl)
        simp only [hidem]
  · intro st n htc hlk
    have hs : (alookup st.unwritten n).isSome = true := by rw [hlk]; rfl
    rw [touch_role_state_of_some st n false htc hs]
    constructor
    · show alookup (amodify st.unwritten n (fun c => { c with touched := false })) n
          = some (_generate_role_changes_entry false)
      rw [alookup_amodify_self, hlk]
      rfl
    · show n ∈ akeys (amodify st.unwritten n (fun c => { c with touched := false }))
      rw [akeys_amodify]
      exact mem_akeys_of_isSome _ _ hs

/-- C4 witness: the amended theorem applied at the concrete touch
scenario. -/
theorem C4_touch_witness :
    (touch_role (touch_role c4st "a" true).1 "a" true).1 = (touch_role c4st "a" true).1
    ∧ (alookup ((touch_role c4st1 "a" false).1).unwritten "a"
          = some (_generate_role_changes_entry false)
        ∧ "a" ∈ list_changed_rolenames (touch_role c4st1 "a" false).1) :=
  ⟨C4_touch_idempotent_and_flag_reset.1 c4st "a",
   C4_touch_idempotent_and_flag_reset.2 c4st1 "a" rfl rfl⟩

/-- C1 (code bug): `create_roledb_from_root_metadata` is not atomic.  Line
107 clears the store before any validation of the incoming name set, so on
the failing input (single role `a/b`, parent `a` absent) the call raises
the missing-parent error but leaves the store empty instead of equal to the
prior store; and on the passing input (single role `root`) the call absorbs
the role but still ends in the `NameError` of line 211 of `add_role`. -/
theorem C1_create_roledb_not_atomic :
    (create_roledb_from_root_metadata c1pre c1meta_bad false).2
        = .error (.tufError "Parent role does not exist: a")
    ∧ (create_roledb_from_root_metadata c1pre c1meta_bad false).1.roledb = []
    ∧ (create_roledb_from_root_metadata c1pre c1meta_bad false).1.roledb
        ≠ c1pre.roledb
    ∧ (create_roledb_from_root_metadata c1pre c1meta_good false).2
        = .error (.nameError "name created is not defined")
    ∧ (create_roledb_from_root_metadata c1pre c1meta_good false).1.roledb
        = [("root", roleinfo_of_stub c1meta_good "root"
              { keyids := ["k1"], threshold := 1 })] := by
  refine ⟨rfl, rfl, ?_, rfl, rfl⟩
  decide

/-- C2 (code bug): `signature_count_on_write` never returns a count.  For a
stored delegated role (`a/b` with stored parent `a`) line 376 indexes the
parent's two-key delegations dict with the child rolename and raises
`KeyError`; for a stored top-level role (`a`) the parent lookup with the
empty parent name raises `KeyError`; and for every state and rolename the
call never produces a successful numeric result (the reachable tail of the
function is the undefined name `delegated` of line 377). -/
theorem C2_signature_count_on_write_raises :
    signature_count_on_write c2st "a/b" = .error (.keyError "a/b")
    ∧ signature_count_on_write c2st "a" = .error (.keyError "")
    ∧ ∀ (st : RoleDBState) (rolename : String),
        nat_result_ok (signature_count_on_write st rolename) = false := by
  refine ⟨rfl, rfl, ?_⟩
  intro st rolename
  unfold signature_count_on_write
  cases _check_rolename st rolename with
  | error e => rfl
  | ok u =>
    cases alookup st.roledb rolename with
    | none => rfl
    | some info =>
      cases alookup st.roledb (parent_of rolename) with
      | none => rfl
      | some parent_info =>
        cases hdel : parent_info.delegations with
        | none => simp [hdel, nat_result_ok]
        | some d =>
          cases hx : delegations_getitem d rolename with
          | error e => simp [hdel, hx, nat_result_ok]
          | ok u2 => simp [hdel, hx, nat_result_ok]

/-- C3 (code bug): with tracking enabled no update succeeds — the first
statement of `_update_unwritten_role_changes` raises `TypeError` through
`_retrieve_list_from_dict` (line 255), leaving the state untouched — and
`clear_unwritten_changes_after_write` (lines 448-449) assigns a local name,
so after a touch the commit leaves `changedRoleNames` non-empty. -/
theorem C3_update_raises_and_commit_does_not_clear :
    update_roleinfo c3st "root" c3new
        = (c3st, .error (.typeError "in requires string as left operand, not dict"))
    ∧ clear_unwritten_changes_after_write c3touched = c3touched
    ∧ list_changed_rolenames (clear_unwritten_changes_after_write c3touched)
        = ["root"]
    ∧ list_changed_rolenames (clear_unwritten_changes_after_write c3touched)
        ≠ [] := by
  refine ⟨rfl, rfl, rfl, ?_⟩
  decide

/-- C5 (code bug): the diff-merge helper `_modify_changes_list` raises
`TypeError` on every call (line 231 adds two Python sets with `+`), so
re-adding an already-added item and an add-then-remove both end in an
exception instead of the claimed merged list. -/
theorem C5_modify_changes_list_raises :
    _modify_changes_list ["x"] ["x"] []
        = .error (.typeError "unsupported operand types for +: set and set")
    ∧ _modify_changes_list ["x"] [] ["x"]
        = .error (.typeError "unsupported operand types for +: set and set") :=
  ⟨rfl, rfl⟩

/-- C6 counterexample: from a state with one pending diff and one partially
written role, `clear_roledb` empties the name list but leaves both the
pending-diff map and the partially-written set non-empty, refuting the
claim that all change-tracking state is cleared. -/
theorem C6_clear_leaves_tracker :
    get_rolenames (clear_roledb c6st) = []
    ∧ (clear_roledb c6st).unwritten ≠ []
    ∧ (clear_roledb c6st).partially_written ≠ [] := by
  refine ⟨rfl, ?_, ?_⟩ <;> decide

/-- C6 (amended): for every store state, `clear_roledb` makes
`get_rolenames` return the empty list, and leaves the pending-diff map and
the partially-written set exactly as they were (line 917 clears only
`_roledb_dict`). -/
theorem C6_clear_empties_store_only :
    ∀ st : RoleDBState,
      get_rolenames (clear_roledb st) = []
      ∧ (clear_roledb st).unwritten = st.unwritten
      ∧ (clear_roledb st).partially_written = st.partially_written :=
  fun _ => ⟨rfl, rfl, rfl⟩

/-- C7 (code bug): `add_role` raises `RoleAlreadyExists` for a present name
regardless of the supplied record and leaves the store unchanged; raises
the missing-parent error for `x/y` when `x` is absent and leaves the store
unchanged; but once the parent is present the same add stores the record
and still raises `NameError` (line 211 evaluates the undefined names
`created`/`touched`), so no add ever succeeds. -/
theorem C7_add_role_checks_but_always_raises :
    add_role c7e "x/y" ry true
        = (c7e, .error (.tufError "Parent role does not exist: x"))
    ∧ add_role c7e "x" rx true
        = ({ c7e with roledb := [("x", rx)] },
           .error (.nameError "name created is not defined"))
    ∧ add_role c7st1 "x/y" ry true
        = ({ c7st1 with roledb := [("x", rx), ("x/y", ry)] },
           .error (.nameError "name created is not defined"))
    ∧ add_role c7st1 "x" rx true
        = (c7st1, .error (.roleAlreadyExistsError "Role already exists: x"))
    ∧ add_role c7st1 "x" rx2 true
        = (c7st1, .error (.roleAlreadyExistsError "Role already exists: x")) :=
  ⟨rfl, rfl, rfl, rfl, rfl⟩

/-- C9 (confirmed): on the store `a, a/b, a/c, a/b/c, a/b/c/d`,
`remove_role('a/b')` succeeds and leaves exactly `a` and `a/c`; and the
descendant test `name.startswith(rolename + '/')` never matches the name
itself (for every name) nor a name sharing only a literal prefix
(`a/bc` for `a/b`). -/
theorem C9_remove_cascades_proper_descendants :
    akeys ((remove_role c9st "a/b").1.roledb) = ["a", "a/c"]
    ∧ (remove_role c9st "a/b").2 = .ok ()
    ∧ (∀ n : String, is_delegated_name n n = false)
    ∧ is_delegated_name "a/b" "a/bc" = false
    ∧ is_delegated_name "a/b" "a/b" = false :=
  ⟨rfl, rfl, is_delegated_name_self, rfl, rfl⟩

/-- Successful `get_roleinfo` in the reference model: the stored cell `p`
is copied into the fresh cell `next`. -/
theorem get_roleinfo_ref_eq (s : RefState) (n : String) (p : Nat)
    (hval : _validate_rolename n = .ok ()) (hlk : alookup s.db n = some p) :
    get_roleinfo_ref s n
      = ({ s with heap := heapWrite s.heap s.next (s.heap p), next := s.next + 1 },
         .ok s.next) := by
  unfold get_roleinfo_ref RefState.alloc
  simp [hval, hlk]

/-- The value a successful `get_roleinfo` hands back is the stored record. -/
theorem get_value_ref_eq (s : RefState) (n : String) (p : Nat)
    (hval : _validate_rolename n = .ok ()) (hlk : alookup s.db n = some p) :
    get_value_ref s n = .ok (s.heap p) := by
  unfold get_value_ref
  rw [get_roleinfo_ref_eq s n p hval hlk]
  simp [heapWrite]

/-- C8 counterexample: the empty rolename is absent from the empty store,
yet `get_roleinfo` raises `InvalidName` (from `_validate_rolename`, line
953), not `UnknownRole` — refuting the "raises UnknownRole exactly when
the name is absent" clause. -/
theorem C8_get_empty_name_invalid_not_unknown :
    alookup c7e.roledb "" = none
    ∧ get_roleinfo c7e ""
        = .error (.invalidNameError "Rolename must not be an empty string")
    ∧ is_unknown_role_error (get_roleinfo c7e "") = false :=
  ⟨rfl, rfl, rfl⟩

/-- C8 (amended): for a well-formed fresh name whose parent check passes,
`add` then `get` returns a record equal to the one supplied; mutating the
copy returned by `get` never changes the value of a later `get` (the
reference model: line 724 deep-copies into a fresh cell); and for
well-formed names `get` raises `UnknownRole` exactly when the name is
absent — malformed names raise `InvalidName` instead, before the
membership check. -/
theorem C8_get_copy_semantics :
    (∀ (st : RoleDBState) (n : String) (r : RoleInfo),
        _validate_rolename n = .ok () →
        alookup st.roledb n = none →
        (slash_in n && (alookup st.roledb (parent_of n)).isNone) = false →
        get_roleinfo ((add_role st n r true).1) n = .ok r)
    ∧ (∀ (s : RefState) (n : String) (v : RoleInfo),
        RefWF s →
        get_value_ref (get_then_mutate s n v) n = get_value_ref s n)
    ∧ (∀ (st : RoleDBState) (n : String),
        _validate_rolename n = .ok () →
        (is_unknown_role_error (get_roleinfo st n) = true
          ↔ alookup st.roledb n = none)) := by
  refine ⟨?_, ?_, ?_⟩
  · intro st n r hval hlk hpar
    have hadd : (add_role st n r true).1 = { st with roledb := st.roledb ++ [(n, r)] } := by
      unfold add_role
      simp [hval, hlk, hpar]
    rw [hadd]
    have hl2 : alookup ({ st with roledb := st.roledb ++ [(n, r)] } :
        RoleDBState).roledb n = some r := alookup_append_unit _ _ _ hlk
    unfold get_roleinfo _check_rolename
    simp [hval, hl2]
  · intro s n v hwf
    unfold get_then_mutate
    cases hval : _validate_rolename n with
    | error e =>
      have h1 : get_roleinfo_ref s n = (s, .error e) := by
        unfold get_roleinfo_ref; rw [hval]
      rw [h1]
    | ok u =>
      cases hlk : alookup s.db n with
      | none =>
        have h1 : get_roleinfo_ref s n
            = (s, .error (.unknownRoleError ("Role name does not exist: " ++ n))) := by
          unfold get_roleinfo_ref; simp [hval, hlk]
        rw [h1]
      | some p =>
        have hp : p < s.next := hwf (n, p) (alookup_mem _ _ _ hlk)
        rw [get_roleinfo_ref_eq s n p hval hlk]
        rw [get_value_ref_eq s n p hval hlk]
        have hlk3 : alookup ({ s with
            heap := heapWrite (heapWrite s.heap s.next (s.heap p)) s.next v,
            next := s.next + 1 } : RefState).db n = some p := hlk
        rw [get_value_ref_eq _ n p hval hlk3]
        show Except.ok (heapWrite (heapWrite s.heap s.next (s.heap p)) s.next v p)
            = Except.ok (s.heap p)
        have hne : p ≠ s.next := by omega
        simp [heapWrite, hne]
  · intro st n hval
    unfold get_roleinfo _check_rolename
    cases hlk : alookup st.roledb n with
    | none => simp [hval, hlk, is_unknown_role_error]
    | some r => simp [hval, hlk, is_unknown_role_error]

/-- C8 witness: the amended theorem applied at concrete inputs — `add`
then `get` of `x` on the empty store, the mutate-after-get scenario on the
one-record reference state, and the unknown-role test for `z`. -/
theorem C8_get_copy_semantics_witness :
    get_roleinfo ((add_role c7e "x" rx true).1) "x" = .ok rx
    ∧ get_value_ref (get_then_mutate s8 "x" mutrec) "x" = get_value_ref s8 "x"
    ∧ (is_unknown_role_error (get_roleinfo c7e "z") = true
        ↔ alookup c7e.roledb "z" = none) :=
  ⟨C8_get_copy_semantics.1 c7e "x" rx rfl rfl rfl,
   C8_get_copy_semantics.2.1 s8 "x" mutrec (by decide),
   C8_get_copy_semantics.2.2 c7e "z" rfl⟩

/-- `copy_and_init_ref` only writes the freshly allocated cell: every cell
below a bound not exceeding `next` is preserved, and `next` does not
decrease. -/
theorem copy_and_init_ref_frame (s : RefState) (meta : RootMetaRef)
    (rolename : String) (src : Nat) (n0 : Nat) (h : n0 ≤ s.next) :
    (∀ a, a < n0 → (copy_and_init_ref s meta rolename src).1.heap a = s.heap a)
    ∧ n0 ≤ (copy_and_init_ref s meta rolename src).1.next := by
  unfold copy_and_init_ref RefState.alloc
  constructor
  · intro a ha
    show heapWrite s.heap s.next _ a = s.heap a
    unfold heapWrite
    rw [if_neg]
    omega
  · show n0 ≤ s.next + 1
    omega

/-- `add_role_ref` only writes the freshly allocated cell (or nothing on a
failed check): cells below a bound not exceeding `next` are preserved, and
`next` does not decrease. -/
theorem add_role_ref_frame (s : RefState) (n : String) (arg : Nat)
    (rp : Bool) (n0 : Nat) (h : n0 ≤ s.next) :
    (∀ a, a < n0 → (add_role_ref s n arg rp).1.heap a = s.heap a)
    ∧ n0 ≤ (add_role_ref s n arg rp).1.next := by
  unfold add_role_ref RefState.alloc
  split
  · exact ⟨fun a _ => rfl, h⟩
  · split
    · exact ⟨fun a _ => rfl, h⟩
    · split
      · exact ⟨fun a _ => rfl, h⟩
      · refine ⟨fun a ha => ?_, ?_⟩
        · show heapWrite s.heap s.next (s.heap arg) a = s.heap a
          unfold heapWrite
          rw [if_neg]
          omega
        · show n0 ≤ s.next + 1
          omega

/-- The role loop of the bulk load only writes freshly allocated cells:
every cell below a bound not exceeding the entry `next` is preserved. -/
theorem create_add_roles_ref_frame (meta : RootMetaRef)
    (roles : List (String × Nat)) :
    ∀ (s : RefState) (n0 : Nat), n0 ≤ s.next →
      (∀ a, a < n0 → (create_add_roles_ref meta s roles).1.heap a = s.heap a)
      ∧ n0 ≤ (create_add_roles_ref meta s roles).1.next := by
  induction roles with
  | nil =>
    intro s n0 h
    exact ⟨fun a _ => rfl, h⟩
  | cons hd rest ih =>
    intro s n0 h
    obtain ⟨rolename, src⟩ := hd
    have hcopy := copy_and_init_ref_frame s meta rolename src n0 h
    have hadd := add_role_ref_frame (copy_and_init_ref s meta rolename src).1
      rolename (copy_and_init_ref s meta rolename src).2 true n0 hcopy.2
    have hstep : create_add_roles_ref meta s ((rolename, src) :: rest)
        = match add_role_ref (copy_and_init_ref s meta rolename src).1 rolename
            (copy_and_init_ref s meta rolename src).2 true with
          | (s2, .error e) => (s2, .error e)
          | (s2, .ok _) => create_add_roles_ref meta s2 rest := rfl
    rw [hstep]
    cases hr : add_role_ref (copy_and_init_ref s meta rolename src).1 rolename
        (copy_and_init_ref s meta rolename src).2 true with
    | mk s2 r =>
      rw [hr] at hadd
      cases r with
      | error e =>
        refine ⟨fun a ha => ?_, hadd.2⟩
        show s2.heap a = s.heap a
        rw [hadd.1 a ha, hcopy.1 a ha]
      | ok u =>
        have hrec := ih s2 n0 hadd.2
        refine ⟨fun a ha => ?_, hrec.2⟩
        show (create_add_roles_ref meta s2 rest).1.heap a = s.heap a
        rw [hrec.1 a ha, hadd.1 a ha, hcopy.1 a ha]

/-- C10 (confirmed): the operations never alias caller-owned cells into
the store.  (1) `create_roledb_from_root_metadata` never writes any cell
allocated before the call — in particular the caller's `root_metadata`
cells are left unchanged (line 110 deep-copies the argument before the
in-place edits of lines 115-125).  (2) `add_role` stores a deep copy of
the supplied record at a fresh address (line 209): the stored cell holds
the argument value, and mutating the caller's cell `p` afterwards leaves
the stored cell unchanged.  (3) The same for `update_roleinfo` with
tracking off (line 368). -/
theorem C10_no_aliasing_into_store :
    (∀ (s : RefState) (meta : RootMetaRef) (t : Bool) (a : Nat),
        a < s.next → (create_roledb_ref s meta t).1.heap a = s.heap a)
    ∧ (∀ (s : RefState) (n : String) (p : Nat),
        p < s.next →
        _validate_rolename n = .ok () →
        alookup s.db n = none →
        (slash_in n && (alookup s.db (parent_of n)).isNone) = false →
        alookup ((add_role_ref s n p true).1).db n = some s.next
        ∧ ((add_role_ref s n p true).1).heap s.next = s.heap p
        ∧ ∀ v, heapWrite ((add_role_ref s n p true).1).heap p v s.next = s.heap p)
    ∧ (∀ (s : RefState) (n : String) (p : Nat),
        p < s.next →
        s.track_changes = false →
        _validate_rolename n = .ok () →
        (alookup s.db n).isSome = true →
        alookup ((update_roleinfo_ref s n p).1).db n = some s.next
        ∧ ((update_roleinfo_ref s n p).1).heap s.next = s.heap p
        ∧ ∀ v, heapWrite ((update_roleinfo_ref s n p).1).heap p v s.next = s.heap p) := by
  refine ⟨?_, ?_, ?_⟩
  · intro s meta t a ha
    unfold create_roledb_ref
    exact (create_add_roles_ref_frame meta meta.roles { s with db := [] }
      s.next (Nat.le_refl _)).1 a ha
  · intro s n p hp hval hlk hpar
    have hadd : add_role_ref s n p true
        = (add_stored_state s n p, .error (.nameError "name created is not defined")) := by
      unfold add_role_ref RefState.alloc add_stored_state
      simp [hval, hlk, hpar]
    rw [hadd]
    have hne : s.next ≠ p := by omega
    refine ⟨?_, ?_, ?_⟩
    · show alookup (s.db ++ [(n, s.next)]) n = some s.next
      exact alookup_append_unit _ _ _ hlk
    · show heapWrite s.heap s.next (s.heap p) s.next = s.heap p
      simp [heapWrite]
    · intro v
      show heapWrite (heapWrite s.heap s.next (s.heap p)) p v s.next = s.heap p
      simp [heapWrite, hne]
  · intro s n p hp htr hval hlk
    have hnone : (alookup s.db n).isNone = false := by
      cases hx : alookup s.db n
      · rw [hx] at hlk; simp at hlk
      · simp
    have hupd : update_roleinfo_ref s n p = (update_stored_state s n p, .ok ()) := by
      unfold update_roleinfo_ref RefState.alloc update_stored_state
      simp [hval, hnone, htr]
    rw [hupd]
    have hne : s.next ≠ p := by omega
    refine ⟨?_, ?_, ?_⟩
    · show alookup (aset s.db n s.next) n = some s.next
      exact alookup_aset_self _ _ _ hlk
    · show heapWrite s.heap s.next (s.heap p) s.next = s.heap p
      simp [heapWrite]
    · intro v
      show heapWrite (heapWrite s.heap s.next (s.heap p)) p v s.next = s.heap p
      simp [heapWrite, hne]

/-- C10 witness: the theorem applied at concrete inputs — a bulk load over
the caller cell 1, an `add_role` of `y` from cell 1, and an
`update_roleinfo` of `x` from cell 1, each followed by a mutation of the
caller cell with `mutrec`. -/
theorem C10_no_aliasing_witness :
    (create_roledb_ref s10 meta10 false).1.heap 0 = s10.heap 0
    ∧ (alookup ((add_role_ref s10 "y" 1 true).1).db "y" = some s10.next
        ∧ ((add_role_ref s10 "y" 1 true).1).heap s10.next = s10.heap 1
        ∧ heapWrite ((add_role_ref s10 "y" 1 true).1).heap 1 mutrec s10.next
            = s10.heap 1)
    ∧ (alookup ((update_roleinfo_ref s10 "x" 1).1).db "x" = some s10.next
        ∧ ((update_roleinfo_ref s10 "x" 1).1).heap s10.next = s10.heap 1
        ∧ heapWrite ((update_roleinfo_ref s10 "x" 1).1).heap 1 mutrec s10.next
            = s10.heap 1) := by
  refine ⟨C10_no_aliasing_into_store.1 s10 meta10 false 0 (by decide), ?_, ?_⟩
  · have h := C10_no_aliasing_into_store.2.1 s10 "y" 1 (by decide) rfl rfl rfl
    exact ⟨h.1, h.2.1, h.2.2 mutrec⟩
  · have h := C10_no_aliasing_into_store.2.2 s10 "x" 1 (by decide) rfl rfl rfl
    exact ⟨h.1, h.2.1, h.2.2 mutrec⟩
